import Mathlib

/-!
Verification of the SEC-Document-Search-and-Helper filing client.

This file gives a shallow embedding, in Lean 4, of the pure logic of the
repository's EDGAR client (`src/edgar_client.py`) and of the CIK validator
(`src/utils.py`), and proves the behavioural properties stated for them.

Conventions of the embedding:
* machine floats in the Python source are modelled as exact rationals (`ℚ`);
* network I/O is modelled by an `Oracle`: a map from URL to the outcome of
  an HTTP fetch (`Except` failure message or body text) together with the
  outcome of JSON-decoding an index body;
* XML documents are modelled as already-tokenised element trees
  (`XmlElem`), and a raw input string is modelled by the outcome of
  `xml.etree.ElementTree.fromstring` on it (`Form4Input`);
* Python exceptions are modelled with `Except String`.
-/

/-- Model of Python's `str.zfill`, at the level of character lists:
left-pad with `'0'` to the requested width, keeping a leading sign
character in place.  (CPython returns the string unchanged when it is
already at least `width` long.) -/
def zfillChars : List Char → Nat → List Char
  | [], width => List.replicate width '0'
  | c :: rest, width =>
    if width ≤ (c :: rest).length then c :: rest
    else if c = '+' ∨ c = '-' then
      c :: (List.replicate (width - (rest.length + 1)) '0' ++ rest)
    else
      List.replicate (width - (c :: rest).length) '0' ++ (c :: rest)

/-- Model of Python's `str.zfill`, used by the client as
`padded_cik = cik.zfill(10)` (src/edgar_client.py:35,51). -/
def zfill (s : String) (width : Nat) : String :=
  String.mk (zfillChars s.data width)

/-- `validate_cik` from src/utils.py:53-55:
`bool(cik and cik.isdigit() and len(cik) <= 10)`. -/
def validate_cik (cik : String) : Bool :=
  !cik.isEmpty && cik.data.all Char.isDigit && decide (cik.length ≤ 10)

/-- Numeric value of a list of decimal digit characters. -/
def natOfDigits (l : List Char) : Nat :=
  l.foldl (fun acc c => 10 * acc + (c.toNat - 48)) 0

/-- Split a character list at every occurrence of the separator
(Python's `str.split(sep)` for a one-character separator). -/
def splitOnChar (sep : Char) : List Char → List (List Char)
  | [] => [[]]
  | c :: rest =>
    match splitOnChar sep rest with
    | [] => [[]]
    | g :: gs => if c = sep then [] :: g :: gs else (c :: g) :: gs

/-- CPython's `strptime` directive `%Y`: exactly four decimal digits
(`_strptime.py` compiles it to the pattern of four `\d`). -/
def parseYearField (l : List Char) : Option Nat :=
  if l.length = 4 ∧ l.all Char.isDigit then some (natOfDigits l) else none

/-- CPython's `strptime` directive `%m`: `1[0-2]`, `0[1-9]` or a single
`[1-9]` — one or two digits with value 1..12, no space padding. -/
def parseMonthField (l : List Char) : Option Nat :=
  if 1 ≤ l.length ∧ l.length ≤ 2 ∧ l.all Char.isDigit then
    if 1 ≤ natOfDigits l ∧ natOfDigits l ≤ 12 then some (natOfDigits l) else none
  else none

/-- CPython's `strptime` directive `%d`: `3[01]`, `[12]` then a digit,
`0[1-9]`, a single `[1-9]`, or a space followed by `[1-9]` — one or two
digits with value 1..31, or a space-padded single digit. -/
def parseDayField (l : List Char) : Option Nat :=
  match l with
  | [' ', c] => if '1' ≤ c ∧ c ≤ '9' then some (c.toNat - 48) else none
  | _ =>
    if 1 ≤ l.length ∧ l.length ≤ 2 ∧ l.all Char.isDigit then
      if 1 ≤ natOfDigits l ∧ natOfDigits l ≤ 31 then some (natOfDigits l) else none
    else none

/-- Gregorian leap-year test, as in Python's `calendar`/`datetime`. -/
def isLeapYear (y : Nat) : Bool :=
  y % 4 == 0 && (y % 100 != 0 || y % 400 == 0)

/-- Number of days in month `m` of year `y`. -/
def daysInMonth (y m : Nat) : Nat :=
  if m = 2 then (if isLeapYear y then 29 else 28)
  else if m = 4 ∨ m = 6 ∨ m = 9 ∨ m = 11 then 30
  else 31

/-- Days since the Unix epoch (1970-01-01) of the civil date `y-m-d`,
by the standard civil-calendar conversion.  This is the order- and
difference-faithful model of a `datetime` value at day resolution. -/
def days_from_civil (y m d : Nat) : Int :=
  let y2 := if m ≤ 2 then y - 1 else y
  let era := y2 / 400
  let yoe := y2 % 400
  let mp := (m + 9) % 12
  let doy := (153 * mp + 2) / 5 + d - 1
  let doe := yoe * 365 + yoe / 4 - yoe / 100 + doy
  ((era * 146097 + doe : Nat) : Int) - 719468

/-- Model of `datetime.strptime(date, '%Y-%m-%d')`
(src/edgar_client.py:300): `none` when the string does not match the
format (the whole string must be three `%Y`/`%m`/`%d` fields joined by
literal dashes; none of the fields can contain a dash, so splitting on
dashes recovers them) or the `datetime` constructor rejects the parsed
numbers (year below `MINYEAR = 1`, or day out of range for the month);
otherwise the parsed date as a day count. -/
def strptime_ymd (s : String) : Option Int :=
  match splitOnChar '-' s.data with
  | [ys, ms, ds] =>
    match parseYearField ys, parseMonthField ms, parseDayField ds with
    | some y, some m, some d =>
      if 1 ≤ y ∧ d ≤ daysInMonth y m then some (days_from_civil y m d)
      else none
    | _, _, _ => none
  | _ => none

/-- The four index-aligned arrays of `filings.recent` in the manifest
consumed by `get_recent_filings` (src/edgar_client.py:293-296). -/
structure RecentFilings where
  form : List String
  filingDate : List String
  accessionNumber : List String
  primaryDocument : List String
deriving DecidableEq

/-- One entry of the list built by `get_recent_filings`
(src/edgar_client.py:302-307); the parsed filing date is a day count. -/
structure Filing where
  form : String
  filing_date : Int
  accession_number : String
  primary_document : String
deriving DecidableEq

/-- Python's 4-ary `zip`: truncates to the shortest input
(src/edgar_client.py:298). -/
def zip4 {α β γ δ : Type} (a : List α) (b : List β) (c : List γ) (d : List δ) :
    List (α × β × γ × δ) :=
  a.zip (b.zip (c.zip d))

/-- The loop body of `get_recent_filings` (src/edgar_client.py:298-310),
over the zipped rows.  A `strptime` failure on a row whose form type is
selected propagates as the exception re-raised at
src/edgar_client.py:315. -/
def process_filing_rows (form_types : List String) (cutoff_date : Int) :
    List (String × String × String × String) → Except String (List Filing)
  | [] => .ok []
  | (form, date, accession, doc) :: rest =>
    if form ∈ form_types then
      match strptime_ymd date with
      | none =>
        .error ("Failed to fetch recent filings: time data " ++ date ++
          " does not match format %Y-%m-%d")
      | some filing_date =>
        if cutoff_date ≤ filing_date then
          match process_filing_rows form_types cutoff_date rest with
          | .ok l => .ok (⟨form, filing_date, accession, doc⟩ :: l)
          | .error e => .error e
        else process_filing_rows form_types cutoff_date rest
    else process_filing_rows form_types cutoff_date rest

/-- `get_recent_filings` (src/edgar_client.py:280-315), with the already
fetched manifest arrays as input and `datetime.now()` modelled by the day
count `now`; `cutoff_date = now - timedelta(days=days_back)`
(src/edgar_client.py:286). -/
def get_recent_filings (recent : RecentFilings) (form_types : List String)
    (days_back : Int) (now : Int) : Except String (List Filing) :=
  process_filing_rows form_types (now - days_back)
    (zip4 recent.form recent.filingDate recent.accessionNumber recent.primaryDocument)

/-- The selection the spec describes for the cutoff filter: keep a row
exactly when its form type is in the allow-set and its filing date is on
or after the cutoff. -/
def keepRow (form_types : List String) (cutoff_date : Int) :
    String × String × String × String → Option Filing
  | (form, date, accession, doc) =>
    if form ∈ form_types then
      match strptime_ymd date with
      | some d => if cutoff_date ≤ d then some ⟨form, d, accession, doc⟩ else none
      | none => none
    else none

/-- One entry of `directory.item` in a per-accession index listing
(src/edgar_client.py:68,116): `name` models `file.get('name', '')` and
`type` models `file_entry.get('type')` (absent key modelled by `none`). -/
structure IndexItem where
  name : String
  type : Option String
deriving DecidableEq

/-- The simulated remote side seen by the client: `fetch` is the outcome
of a rate-limited `requests.get(url)` + `raise_for_status()` (`.error`
carries `str(e)`, `.ok` the response text), and `jsonItems` is the
outcome of decoding an index response body into its `directory.item`
list (src/edgar_client.py:64-68,113-116). -/
structure Oracle where
  fetch : String → Except String String
  jsonItems : String → Except String (List IndexItem)

/-- `self.base_url` (src/edgar_client.py:12). -/
def base_url : String := "https://www.sec.gov/Archives/edgar/data"

/-- `accession_number.replace("-", "")` (src/edgar_client.py:52):
drop every dash. -/
def stripDashes (s : String) : String :=
  String.mk (s.data.filter (fun c => ¬ c = '-'))

/-- The per-accession index endpoint
`f"{self.base_url}/{padded_cik}/{clean_accession}/index.json"`
(src/edgar_client.py:59,106). -/
def index_json_url (padded_cik clean_accession : String) : String :=
  base_url ++ "/" ++ padded_cik ++ "/" ++ clean_accession ++ "/index.json"

/-- Is the first list a prefix of the second (decidably, by direct
recursion)? -/
def leadsWith : List Char → List Char → Bool
  | [], _ => true
  | _ :: _, [] => false
  | a :: as, b :: bs => a = b && leadsWith as bs

/-- Substring test on character lists: Python's `needle in haystack`. -/
def containsChars (haystack needle : List Char) : Bool :=
  match haystack with
  | [] => needle.isEmpty
  | _ :: t => leadsWith needle haystack || containsChars t needle

/-- Suffix test on character lists: Python's `str.endswith`. -/
def endsWithChars (l sfx : List Char) : Bool :=
  leadsWith sfx.reverse l.reverse

/-- ASCII lower-casing of one character (`str.lower`). -/
def lowerChar (c : Char) : Char :=
  if 'A' ≤ c ∧ c ≤ 'Z' then Char.ofNat (c.toNat + 32) else c

/-- The index-scan condition of the Form 4 branch
(src/edgar_client.py:69):
`file.get('name','').endswith('.xml') and 'form4' in file.get('name','').lower()`. -/
def isForm4File (name : String) : Bool :=
  endsWithChars name.data ".xml".data &&
    containsChars (name.data.map lowerChar) "form4".data

/-- The fixed fallback URL patterns of the Form 4 branch
(src/edgar_client.py:85-90), in source order. -/
def form4_patterns (padded_cik clean_accession : String) : List String :=
  [base_url ++ "/" ++ padded_cik ++ "/" ++ clean_accession ++ "/form4.xml",
   base_url ++ "/" ++ padded_cik ++ "/" ++ clean_accession ++ "/xslF345X03/form4.xml",
   base_url ++ "/" ++ padded_cik ++ "/" ++ clean_accession ++ "/" ++ clean_accession ++ ".txt",
   base_url ++ "/" ++ padded_cik ++ "/" ++ clean_accession ++ "/primary_doc.xml"]

/-- The `try` block of the Form 4 branch that resolves the document via
the accession's `index.json` (src/edgar_client.py:58-82).  Returns the
URLs attempted (in order) and the document text when the lookup
succeeded; any exception inside the block is swallowed (`none`) and the
caller falls through to the fixed patterns. -/
def index_lookup (o : Oracle) (padded_cik clean_accession : String) :
    List String × Option String :=
  let iu := index_json_url padded_cik clean_accession
  match o.fetch iu with
  | .error _ => ([iu], none)
  | .ok body =>
    match o.jsonItems body with
    | .error _ => ([iu], none)
    | .ok items =>
      match items.find? (fun f => isForm4File f.name) with
      | none => ([iu], none)
      | some f =>
        let du := base_url ++ "/" ++ padded_cik ++ "/" ++ clean_accession ++ "/" ++ f.name
        match o.fetch du with
        | .error _ => ([iu, du], none)
        | .ok doc => ([iu, du], some doc)

/-- The pattern-fallback loop of the Form 4 branch
(src/edgar_client.py:92-101): attempt each URL in order, return the
first success, and raise the terminal message after exhausting the list
(src/edgar_client.py:103).  Returns the attempted URLs in order,
together with the outcome. -/
def try_patterns (fetch : String → Except String String) :
    List String → List String × Except String String
  | [] => ([], .error "Could not retrieve Form 4 document using any known method")
  | p :: rest =>
    match fetch p with
    | .ok body => ([p], .ok body)
    | .error _ =>
      (p :: (try_patterns fetch rest).1, (try_patterns fetch rest).2)

/-- The outer `except` of `get_filing_document`
(src/edgar_client.py:136-138): re-raise any escaping exception with the
`Failed to fetch document:` prefix. -/
def wrapDocError : Except String String → Except String String
  | .ok s => .ok s
  | .error e => .error ("Failed to fetch document: " ++ e)

/-- `get_filing_document` (src/edgar_client.py:47-138), instrumented to
also return the list of URLs attempted against the oracle, in order.
The Form 4 branch tries the index lookup and then the fixed patterns;
the generic branch resolves the main document from the index listing
(first entry whose declared type matches the requested form type or
whose name ends in `.htm`, else `<clean_accession>.txt`) and fetches
it. -/
def get_filing_document (o : Oracle) (accession_number cik : String)
    (form_type : Option String) : List String × Except String String :=
  let padded_cik := zfill cik 10
  let clean_accession := stripDashes accession_number
  if form_type = some "4" then
    match index_lookup o padded_cik clean_accession with
    | (tr, some doc) => (tr, .ok doc)
    | (tr, none) =>
      (tr ++ (try_patterns o.fetch (form4_patterns padded_cik clean_accession)).1,
       wrapDocError (try_patterns o.fetch (form4_patterns padded_cik clean_accession)).2)
  else
    let iu := index_json_url padded_cik clean_accession
    match o.fetch iu with
    | .error e => ([iu], .error ("Failed to fetch document: " ++ e))
    | .ok body =>
      match o.jsonItems body with
      | .error e => ([iu], .error ("Failed to fetch document: " ++ e))
      | .ok items =>
        let main_doc :=
          match items.find? (fun f => f.type == form_type || f.name.endsWith ".htm") with
          | some f => f.name
          | none => clean_accession ++ ".txt"
        let du := base_url ++ "/" ++ padded_cik ++ "/" ++ clean_accession ++ "/" ++ main_doc
        match o.fetch du with
        | .error e => ([iu, du], .error ("Failed to fetch document: " ++ e))
        | .ok doc => ([iu, du], .ok doc)

/-- Did a fetch outcome raise (any non-success)? -/
def isErr : Except String String → Bool
  | .ok _ => false
  | .error _ => true

/-- The attempt sequence the spec prescribes over an ordered candidate
list: try each URL in order and stop at the first success. -/
def attempt_order (fetch : String → Except String String) :
    List String → List String
  | [] => []
  | p :: rest =>
    match fetch p with
    | .ok _ => [p]
    | .error _ => p :: attempt_order fetch rest

mutual
/-- An XML element as produced by `xml.etree.ElementTree`: tag, text
node (possibly absent), and child elements in document order.  The
children are a mutually defined forest so that tree recursion is
structural. -/
inductive XmlElem : Type where
  | node : String → Option String → XmlForest → XmlElem
/-- A list of sibling XML elements, in document order. -/
inductive XmlForest : Type where
  | nil : XmlForest
  | cons : XmlElem → XmlForest → XmlForest
end

/-- Build a forest from a list of elements. -/
def xmlForestOf : List XmlElem → XmlForest
  | [] => .nil
  | e :: rest => .cons e (xmlForestOf rest)

/-- Build an element from a tag, an optional text node and a list of
children. -/
def xnode (tag : String) (text : Option String) (children : List XmlElem) : XmlElem :=
  .node tag text (xmlForestOf children)

/-- Tag of an element. -/
def XmlElem.tag : XmlElem → String
  | .node t _ _ => t

/-- Text of an element (`Element.text`; `none` models Python `None`). -/
def XmlElem.text : XmlElem → Option String
  | .node _ x _ => x

/-- The children of an element, as a list. -/
def XmlElem.children : XmlElem → List XmlElem
  | .node _ _ cs => listOf cs
where
  listOf : XmlForest → List XmlElem
  | .nil => []
  | .cons e rest => e :: listOf rest

mutual
/-- All proper descendants of an element, in document order
(the subtree scan of `findall(".//...")`). -/
def descendants : XmlElem → List XmlElem
  | .node _ _ cs => descForest cs
/-- All elements of the subtrees of a forest, in document order: each
element followed by its own descendants, then the next element. -/
def descForest : XmlForest → List XmlElem
  | .nil => []
  | .cons e rest => e :: (descendants e ++ descForest rest)
end

/-- `element.findall(".//tag")`: all proper descendants with the given
tag, in document order. -/
def findall_desc (e : XmlElem) (tag : String) : List XmlElem :=
  (descendants e).filter (fun n => n.tag == tag)

/-- `element.find(".//tag")`: first proper descendant with the given
tag. -/
def find_desc (e : XmlElem) (tag : String) : Option XmlElem :=
  (findall_desc e tag).head?

/-- `element.find(".//t1/t2")`: first `t2` child of a `t1` descendant. -/
def find_desc_child (e : XmlElem) (t1 t2 : String) : Option XmlElem :=
  ((findall_desc e t1).flatMap
    (fun a => a.children.filter (fun n => n.tag == t2))).head?

/-- The whitespace `float()` strips from each end of its argument. -/
def isPySpace (c : Char) : Bool :=
  c = ' ' ∨ c = '\t' ∨ c = '\n' ∨ c = '\r'

/-- Model of Python's `float(s)` on a decimal literal (optional sign,
digits with at most one decimal point; exponent and special forms are
not used by the filings and are not modelled); `none` models the
`ValueError` raised on anything else. -/
def parseDecimal (s : String) : Option ℚ :=
  let t := (s.data.dropWhile isPySpace).reverse.dropWhile isPySpace |>.reverse
  let sgn : ℚ := match t with
    | '-' :: _ => -1
    | _ => 1
  let body := match t with
    | '-' :: r => r
    | '+' :: r => r
    | r => r
  match splitOnChar '.' body with
  | [intPart] =>
    if 1 ≤ intPart.length ∧ intPart.all Char.isDigit then
      some (sgn * (natOfDigits intPart : ℚ))
    else none
  | [intPart, fracPart] =>
    if 1 ≤ (intPart ++ fracPart).length ∧ (intPart ++ fracPart).all Char.isDigit then
      some (sgn * ((natOfDigits (intPart ++ fracPart) : ℚ) / 10 ^ fracPart.length))
    else none
  | _ => none

/-- `float(elem.text)` where `elem.text` may be `None`
(`float(None)` raises, modelled by `none`). -/
def parse_float (s : Option String) : Option ℚ :=
  match s with
  | none => none
  | some str => parseDecimal str

/-- One parsed transaction record (src/edgar_client.py:172-177,189-194).
`transaction_code` is the stored dict value: the `transactionCode`
element's text when the element is present (which may be Python `None`,
modelled `none`), else `"Unknown"`. -/
structure Transaction where
  type : String
  shares : ℚ
  price_per_share : ℚ
  transaction_code : Option String
deriving DecidableEq

/-- The per-transaction body of the two scanning loops
(src/edgar_client.py:165-196): require a `transactionShares/value` and a
`transactionPricePerShare/value` descendant, both with numeric text; a
transaction missing either element, or whose `float(...)` conversion
raises, is skipped. -/
def parseTransaction (ttype : String) (trans : XmlElem) : Option Transaction :=
  match find_desc_child trans "transactionShares" "value",
        find_desc_child trans "transactionPricePerShare" "value" with
  | some shares_elem, some price_elem =>
    match parse_float shares_elem.text, parse_float price_elem.text with
    | some sh, some pr =>
      some ⟨ttype, sh, pr,
        match find_desc trans "transactionCode" with
        | some c => c.text
        | none => some "Unknown"⟩
    | _, _ => none
  | _, _ => none

/-- The full transaction scan of `parse_form4_content`
(src/edgar_client.py:162-196): non-derivative transactions first, then
derivative ones. -/
def scanTransactions (root : XmlElem) : List Transaction :=
  (findall_desc root "nonDerivativeTransaction").filterMap (parseTransaction "non-derivative")
    ++ (findall_desc root "derivativeTransaction").filterMap (parseTransaction "derivative")

/-- `total_shares` (src/edgar_client.py:203). -/
def totalShares (ts : List Transaction) : ℚ :=
  (ts.map (fun t => t.shares)).sum

/-- `weighted_price` (src/edgar_client.py:204): share-weighted average
price when the total is positive, else `0`. -/
def weightedPrice (ts : List Transaction) : ℚ :=
  if 0 < totalShares ts then
    (ts.map (fun t => t.shares * t.price_per_share)).sum / totalShares ts
  else 0

/-- `transaction_type` (src/edgar_client.py:206-208): `"Purchase"` when
some transaction code equals `"P"`, else `"Sale"`. -/
def transactionType (ts : List Transaction) : String :=
  if ts.any (fun t => t.transaction_code == some "P") then "Purchase" else "Sale"

/-- The summary dict returned on success (src/edgar_client.py:210-217).
`owner_name`/`owner_title` hold the element text (possibly `none`) when
the element is present, else the `"Unknown"`/`"Unknown Position"`
defaults. -/
structure Form4Summary where
  owner_name : Option String
  owner_title : Option String
  transaction_type : String
  shares : ℚ
  price_per_share : ℚ
  transactions : List Transaction
deriving DecidableEq

/-- The result of `parse_form4_content`: either a summary dict or a dict
carrying an `error` message. -/
inductive Form4Result : Type where
  | error : String → Form4Result
  | summary : Form4Summary → Form4Result
deriving DecidableEq

/-- The input to `parse_form4_content`, modelled as the outcome of
`ET.fromstring(xml_content)` (src/edgar_client.py:150): a parse failure
carrying `str(e)`, or the document tree. -/
inductive Form4Input : Type where
  | malformed : String → Form4Input
  | tree : XmlElem → Form4Input

/-- `elem.text if elem is not None else default`
(src/edgar_client.py:211-212). -/
def textOrDefault (e : Option XmlElem) (dflt : String) : Option String :=
  match e with
  | some el => el.text
  | none => some dflt

/-- `parse_form4_content` (src/edgar_client.py:147-220). -/
def parse_form4_content (input : Form4Input) : Form4Result :=
  match input with
  | .malformed e => .error ("Failed to parse Form 4 content: " ++ e)
  | .tree root =>
    match find_desc root "reportingOwner" with
    | none => .error "No reporting owner found"
    | some owner_data =>
      let transactions := scanTransactions root
      if transactions.isEmpty then .error "No transaction data found"
      else
        .summary ⟨textOrDefault (find_desc owner_data "rptOwnerName") "Unknown",
          textOrDefault (find_desc owner_data "officerTitle") "Unknown Position",
          transactionType transactions,
          totalShares transactions,
          weightedPrice transactions,
          transactions⟩

/-- The price-per-share formula as the claim states it: the
share-weighted average, defined as `0` exactly when the total share
count is `0`. -/
def claimPrice (ts : List Transaction) : ℚ :=
  if totalShares ts = 0 then 0
  else (ts.map (fun t => t.shares * t.price_per_share)).sum / totalShares ts

/-- Projection used to state results about a parse outcome's price. -/
def summaryPrice : Form4Result → Option ℚ
  | .summary s => some s.price_per_share
  | .error _ => none

/-! ### Helper lemmas -/

lemma zfillChars_nil (width : Nat) : zfillChars [] width = List.replicate width '0' := rfl

lemma zfillChars_cons (c : Char) (rest : List Char) (width : Nat) :
    zfillChars (c :: rest) width =
      if width ≤ (c :: rest).length then c :: rest
      else if c = '+' ∨ c = '-' then
        c :: (List.replicate (width - (rest.length + 1)) '0' ++ rest)
      else List.replicate (width - (c :: rest).length) '0' ++ (c :: rest) := rfl

lemma zfillChars_of_length_le (m : List Char) (hm : 10 ≤ m.length) :
    zfillChars m 10 = m := by
  cases m with
  | nil => simp at hm
  | cons c r => rw [zfillChars_cons, if_pos hm]

lemma zfillChars_idem (l : List Char) (hdig : l.all Char.isDigit = true) :
    zfillChars (zfillChars l 10) 10 = zfillChars l 10 := by
  cases l with
  | nil =>
    rw [zfillChars_nil]
    exact zfillChars_of_length_le _ (by simp)
  | cons ch rest =>
    by_cases h10 : 10 ≤ (ch :: rest).length
    · rw [zfillChars_cons, if_pos h10, zfillChars_cons, if_pos h10]
    · have hch : ch.isDigit = true := by
        simp only [List.all_cons, Bool.and_eq_true] at hdig
        exact hdig.1
      have hsign : ¬(ch = '+' ∨ ch = '-') := by
        rintro (rfl | rfl) <;> exact absurd hch (by decide)
      have h1 : zfillChars (ch :: rest) 10 =
          List.replicate (10 - (ch :: rest).length) '0' ++ (ch :: rest) := by
        rw [zfillChars_cons, if_neg h10, if_neg hsign]
      rw [h1]
      exact zfillChars_of_length_le _
        (by simp only [List.length_append, List.length_replicate, List.length_cons]; omega)

/-- C9: identifier padding is idempotent on valid CIKs: for every
non-empty digit string of length at most 10 (the `validate_cik`
invariant of src/utils.py:53-55), padding with zeros to width 10 twice
(`cik.zfill(10)`, src/edgar_client.py:35) gives the same string as
padding once. -/
theorem zfill_idempotent (cik : String) (h : validate_cik cik = true) :
    zfill (zfill cik 10) 10 = zfill cik 10 := by
  have hdig : cik.data.all Char.isDigit = true := by
    simp only [validate_cik, Bool.and_eq_true] at h
    exact h.1.2
  show String.mk (zfillChars (zfillChars cik.data 10) 10) = String.mk (zfillChars cik.data 10)
  exact congrArg String.mk (zfillChars_idem cik.data hdig)

/-- Witness for `zfill_idempotent` at the concrete CIK `"123"`. -/
theorem zfill_idempotent_witness :
    validate_cik "123" = true ∧ zfill (zfill "123" 10) 10 = zfill "123" 10 :=
  ⟨by decide, zfill_idempotent "123" (by decide)⟩

/-- The common length Python's `zip` truncates the four manifest arrays
to: the minimum of their lengths. -/
def manifestMinLen (recent : RecentFilings) : Nat :=
  min recent.form.length (min recent.filingDate.length
    (min recent.accessionNumber.length recent.primaryDocument.length))

/-- The manifest with every array cut to its first `n` entries. -/
def truncateManifest (recent : RecentFilings) (n : Nat) : RecentFilings :=
  ⟨recent.form.take n, recent.filingDate.take n,
   recent.accessionNumber.take n, recent.primaryDocument.take n⟩

lemma zip4_take {α β γ δ : Type} (a : List α) (b : List β) (c : List γ) (d : List δ)
    (n : Nat) :
    zip4 (a.take n) (b.take n) (c.take n) (d.take n) = (zip4 a b c d).take n := by
  simp only [zip4, List.zip_eq_zipWith, List.take_zipWith]

lemma zip4_length {α β γ δ : Type} (a : List α) (b : List β) (c : List γ) (d : List δ) :
    (zip4 a b c d).length = min a.length (min b.length (min c.length d.length)) := by
  simp [zip4]

/-- C10: `get_recent_filings` iterates the four manifest arrays via
`zip` (src/edgar_client.py:298), so only indices below the minimum of
the four lengths are considered: the call on a manifest with unequal
array lengths returns exactly what it returns on the manifest truncated
to the common minimum, with no error for the dropped tail. -/
theorem zip4_truncation (recent : RecentFilings) (form_types : List String)
    (days_back now : Int) :
    (zip4 recent.form recent.filingDate recent.accessionNumber
        recent.primaryDocument).length = manifestMinLen recent ∧
    get_recent_filings recent form_types days_back now =
      get_recent_filings (truncateManifest recent (manifestMinLen recent))
        form_types days_back now := by
  constructor
  · exact zip4_length _ _ _ _
  · show process_filing_rows _ _ _ = process_filing_rows _ _ _
    have hz : zip4 ((truncateManifest recent (manifestMinLen recent)).form)
        ((truncateManifest recent (manifestMinLen recent)).filingDate)
        ((truncateManifest recent (manifestMinLen recent)).accessionNumber)
        ((truncateManifest recent (manifestMinLen recent)).primaryDocument) =
        zip4 recent.form recent.filingDate recent.accessionNumber
          recent.primaryDocument := by
      show zip4 (recent.form.take _) (recent.filingDate.take _)
        (recent.accessionNumber.take _) (recent.primaryDocument.take _) = _
      rw [zip4_take]
      exact List.take_of_length_le (le_of_eq (zip4_length _ _ _ _))
    rw [hz]

/-- Witness for `zip4_truncation`: a manifest whose `filingDate` array
is one entry short drops the trailing entries of the other arrays. -/
theorem zip4_truncation_witness :
    (zip4 (["4", "4"] : List String) (["2020-01-02"] : List String)
        (["acc1", "acc2"] : List String) (["d1", "d2"] : List String)).length = 1 ∧
    get_recent_filings ⟨["4", "4"], ["2020-01-02"], ["acc1", "acc2"], ["d1", "d2"]⟩
        ["4"] 30 (days_from_civil 2020 1 10) =
      get_recent_filings
        (truncateManifest ⟨["4", "4"], ["2020-01-02"], ["acc1", "acc2"], ["d1", "d2"]⟩
          (manifestMinLen ⟨["4", "4"], ["2020-01-02"], ["acc1", "acc2"], ["d1", "d2"]⟩))
        ["4"] 30 (days_from_civil 2020 1 10) :=
  zip4_truncation ⟨["4", "4"], ["2020-01-02"], ["acc1", "acc2"], ["d1", "d2"]⟩
    ["4"] 30 (days_from_civil 2020 1 10)

lemma process_filing_rows_ok (form_types : List String) (cutoff : Int) :
    ∀ rows : List (String × String × String × String),
    (∀ r ∈ rows, r.1 ∈ form_types → (strptime_ymd r.2.1).isSome = true) →
    process_filing_rows form_types cutoff rows =
      .ok (rows.filterMap (keepRow form_types cutoff)) := by
  intro rows
  induction rows with
  | nil => intro _; rfl
  | cons r rest ih =>
    intro h
    obtain ⟨form, date, accession, doc⟩ := r
    have hrest := ih (fun q hq => h q (List.mem_cons_of_mem _ hq))
    have hr := h _ (List.mem_cons_self _ _)
    by_cases hf : form ∈ form_types
    · cases hs : strptime_ymd date with
      | none =>
        have := hr hf
        rw [hs] at this
        simp at this
      | some dval =>
        by_cases hc : cutoff ≤ dval
        · simp [process_filing_rows, keepRow, hf, hs, hc, hrest]
        · simp [process_filing_rows, keepRow, hf, hs, hc, hrest]
    · simp [process_filing_rows, keepRow, hf, hrest]

/-- C6: the cutoff filter of `get_recent_filings`
(src/edgar_client.py:298-312) returns exactly the manifest rows whose
form type is in the allow-set and whose filing date is on or after
`now - days_back`, provided every selected row's date parses; the
boundary comparison is inclusive (`>=`): a row whose parsed date equals
the cutoff is kept, one whose date is below it (in particular one day
earlier) is dropped. -/
theorem get_recent_filings_cutoff_filter (recent : RecentFilings)
    (form_types : List String) (days_back now : Int)
    (h : ∀ r ∈ zip4 recent.form recent.filingDate recent.accessionNumber
        recent.primaryDocument, r.1 ∈ form_types → (strptime_ymd r.2.1).isSome = true) :
    get_recent_filings recent form_types days_back now =
      .ok ((zip4 recent.form recent.filingDate recent.accessionNumber
        recent.primaryDocument).filterMap (keepRow form_types (now - days_back))) ∧
    (∀ form date accession doc d, strptime_ymd date = some d → form ∈ form_types →
      (keepRow form_types (now - days_back) (form, date, accession, doc) =
          some ⟨form, d, accession, doc⟩ ↔ now - days_back ≤ d)) := by
  refine ⟨process_filing_rows_ok _ _ _ h, ?_⟩
  intro form date accession doc d hs hf
  by_cases hc : now - days_back ≤ d
  · simp [keepRow, hf, hs, hc]
  · simp [keepRow, hf, hs, hc]

/-- Witness for `get_recent_filings_cutoff_filter`: with
`now = 2020-02-01` and a 31-day window (cutoff `2020-01-01`), a Form 4
row dated exactly `2020-01-01` is kept, one dated `2019-12-31` and an
`8-K` row are dropped. -/
theorem get_recent_filings_cutoff_filter_witness :
    get_recent_filings ⟨["4", "4", "8-K"], ["2020-01-01", "2019-12-31", "2020-01-15"],
        ["a1", "a2", "a3"], ["d1", "d2", "d3"]⟩ ["4"] 31 (days_from_civil 2020 2 1) =
      .ok ((zip4 (["4", "4", "8-K"] : List String)
        (["2020-01-01", "2019-12-31", "2020-01-15"] : List String)
        (["a1", "a2", "a3"] : List String)
        (["d1", "d2", "d3"] : List String)).filterMap
          (keepRow ["4"] (days_from_civil 2020 2 1 - 31))) :=
  (get_recent_filings_cutoff_filter
    ⟨["4", "4", "8-K"], ["2020-01-01", "2019-12-31", "2020-01-15"],
      ["a1", "a2", "a3"], ["d1", "d2", "d3"]⟩ ["4"] 31 (days_from_civil 2020 2 1)
    (by decide)).1

lemma process_filing_rows_error (form_types : List String) (cutoff : Int) :
    ∀ rows : List (String × String × String × String),
    (∃ r ∈ rows, r.1 ∈ form_types ∧ strptime_ymd r.2.1 = none) →
    ∃ e, process_filing_rows form_types cutoff rows = .error e := by
  intro rows
  induction rows with
  | nil => rintro ⟨r, hr, -⟩; simp at hr
  | cons r rest ih =>
    rintro ⟨q, hq, hqf, hqs⟩
    obtain ⟨form, date, accession, doc⟩ := r
    rcases List.mem_cons.mp hq with rfl | hq2
    · exact ⟨"Failed to fetch recent filings: time data " ++ date ++
        " does not match format %Y-%m-%d", by simp [process_filing_rows, hqf, hqs]⟩
    · by_cases hf : form ∈ form_types
      · cases hs : strptime_ymd date with
        | none =>
          exact ⟨"Failed to fetch recent filings: time data " ++ date ++
            " does not match format %Y-%m-%d", by simp [process_filing_rows, hf, hs]⟩
        | some dval =>
          obtain ⟨e, he⟩ := ih ⟨q, hq2, hqf, hqs⟩
          by_cases hc : cutoff ≤ dval
          · exact ⟨e, by simp [process_filing_rows, hf, hs, hc, he]⟩
          · exact ⟨e, by simp [process_filing_rows, hf, hs, hc, he]⟩
      · obtain ⟨e, he⟩ := ih ⟨q, hq2, hqf, hqs⟩
        exact ⟨e, by simp [process_filing_rows, hf, he]⟩

/-- C7 counterexample: a manifest whose first Form 4 row has the
malformed date `"not-a-date"` makes the whole `get_recent_filings` call
fail with an error — the malformed row is not skipped, and the
well-formed second row is not returned. -/
theorem get_recent_filings_malformed_date_counterexample :
    get_recent_filings ⟨["4", "4"], ["not-a-date", "2020-01-05"], ["acc1", "acc2"],
        ["d1", "d2"]⟩ ["4"] 30 (days_from_civil 2020 1 10) =
      .error "Failed to fetch recent filings: time data not-a-date does not match format %Y-%m-%d" ∧
    (Except.error "Failed to fetch recent filings: time data not-a-date does not match format %Y-%m-%d" ≠
      (.ok [⟨"4", days_from_civil 2020 1 5, "acc2", "d2"⟩] : Except String (List Filing))) := by
  constructor
  · rfl
  · simp

/-- C7 (amended): a malformed filing-date on a row whose form type is in
the allow-set aborts the whole `get_recent_filings` call with a terminal
error (src/edgar_client.py:300,313-315), rather than skipping that row;
rows whose form type is outside the allow-set never have their date
parsed, so malformed dates there are harmless and the call returns a
list. -/
theorem get_recent_filings_malformed_date_aborts (recent : RecentFilings)
    (form_types : List String) (days_back now : Int) :
    ((∃ r ∈ zip4 recent.form recent.filingDate recent.accessionNumber
        recent.primaryDocument, r.1 ∈ form_types ∧ strptime_ymd r.2.1 = none) →
      ∃ e, get_recent_filings recent form_types days_back now = .error e) ∧
    ((∀ r ∈ zip4 recent.form recent.filingDate recent.accessionNumber
        recent.primaryDocument, r.1 ∈ form_types → (strptime_ymd r.2.1).isSome = true) →
      ∃ l, get_recent_filings recent form_types days_back now = .ok l) :=
  ⟨fun h => process_filing_rows_error _ _ _ h,
   fun h => ⟨_, process_filing_rows_ok _ _ _ h⟩⟩

/-- Witness for `get_recent_filings_malformed_date_aborts`: the
counterexample manifest yields an error, while the same manifest with
the bad date moved to a non-selected `8-K` row yields a list. -/
theorem get_recent_filings_malformed_date_aborts_witness :
    (∃ e, get_recent_filings ⟨["4", "4"], ["not-a-date", "2020-01-05"],
        ["acc1", "acc2"], ["d1", "d2"]⟩ ["4"] 30 (days_from_civil 2020 1 10) = .error e) ∧
    (∃ l, get_recent_filings ⟨["8-K", "4"], ["not-a-date", "2020-01-05"],
        ["acc1", "acc2"], ["d1", "d2"]⟩ ["4"] 30 (days_from_civil 2020 1 10) = .ok l) :=
  ⟨(get_recent_filings_malformed_date_aborts ⟨["4", "4"], ["not-a-date", "2020-01-05"],
      ["acc1", "acc2"], ["d1", "d2"]⟩ ["4"] 30 (days_from_civil 2020 1 10)).1
    ⟨("4", "not-a-date", "acc1", "d1"), by decide, by decide, by decide⟩,
   (get_recent_filings_malformed_date_aborts ⟨["8-K", "4"], ["not-a-date", "2020-01-05"],
      ["acc1", "acc2"], ["d1", "d2"]⟩ ["4"] 30 (days_from_civil 2020 1 10)).2
    (by decide)⟩

lemma parse_no_owner {root : XmlElem}
    (h : find_desc root "reportingOwner" = none) :
    parse_form4_content (.tree root) = .error "No reporting owner found" := by
  simp [parse_form4_content, h]

lemma parse_no_transactions {root : XmlElem} {o : XmlElem}
    (ho : find_desc root "reportingOwner" = some o)
    (ht : scanTransactions root = []) :
    parse_form4_content (.tree root) = .error "No transaction data found" := by
  simp [parse_form4_content, ho, ht]

lemma parse_summary_eq {root : XmlElem} {o : XmlElem}
    (ho : find_desc root "reportingOwner" = some o)
    (ht : scanTransactions root ≠ []) :
    parse_form4_content (.tree root) =
      .summary ⟨textOrDefault (find_desc o "rptOwnerName") "Unknown",
        textOrDefault (find_desc o "officerTitle") "Unknown Position",
        transactionType (scanTransactions root),
        totalShares (scanTransactions root),
        weightedPrice (scanTransactions root),
        scanTransactions root⟩ := by
  simp [parse_form4_content, ho, ht]

lemma parse_summary_fields {x : Form4Input} {s : Form4Summary}
    (h : parse_form4_content x = .summary s) :
    s.transaction_type = transactionType s.transactions ∧
    s.shares = totalShares s.transactions ∧
    s.price_per_share = weightedPrice s.transactions := by
  cases x with
  | malformed e => simp [parse_form4_content] at h
  | tree root =>
    cases ho : find_desc root "reportingOwner" with
    | none => simp [parse_form4_content, ho] at h
    | some o =>
      by_cases ht : scanTransactions root = []
      · simp [parse_form4_content, ho, ht] at h
      · rw [parse_summary_eq ho ht] at h
        obtain rfl := (Form4Result.summary.inj h).symm
        exact ⟨rfl, rfl, rfl⟩

/-- C3: on a well-formed document with a reporting-owner element but no
valid transaction after scanning, `parse_form4_content` returns the
error `"No transaction data found"` (src/edgar_client.py:198-200), and
the error `"No reporting owner found"` is returned exactly when the
reporting-owner element is absent (src/edgar_client.py:153-156); the
two messages are distinct. -/
theorem parse_form4_error_messages (root : XmlElem) :
    ((find_desc root "reportingOwner").isSome = true → scanTransactions root = [] →
      parse_form4_content (.tree root) = .error "No transaction data found") ∧
    (parse_form4_content (.tree root) = .error "No reporting owner found" ↔
      (find_desc root "reportingOwner").isSome = false) ∧
    ("No transaction data found" : String) ≠ "No reporting owner found" := by
  refine ⟨?_, ⟨?_, ?_⟩, by decide⟩
  · intro hs ht
    obtain ⟨o, ho⟩ := Option.isSome_iff_exists.mp hs
    exact parse_no_transactions ho ht
  · intro h
    cases ho : find_desc root "reportingOwner" with
    | none => rfl
    | some o =>
      exfalso
      by_cases ht : scanTransactions root = []
      · rw [parse_no_transactions ho ht] at h
        exact absurd (Form4Result.error.inj h) (by decide)
      · rw [parse_summary_eq ho ht] at h
        exact Form4Result.noConfusion h
  · intro h
    exact parse_no_owner (Option.not_isSome_iff_eq_none.mp (by simp [h]))

/-- Concrete document for the `parse_form4_error_messages` witness: a
reporting owner and no transaction elements. -/
def c3_root : XmlElem := xnode "doc" none [xnode "reportingOwner" none []]

/-- Witness for `parse_form4_error_messages`. -/
theorem parse_form4_error_messages_witness :
    (find_desc c3_root "reportingOwner").isSome = true ∧
    scanTransactions c3_root = [] ∧
    parse_form4_content (.tree c3_root) = .error "No transaction data found" :=
  ⟨rfl, rfl, (parse_form4_error_messages c3_root).1 rfl rfl⟩

/-- C8: `parse_form4_content` is total over its inputs: it always
returns a result dict — a summary or a dict carrying an `error` message
— and the XML-parse-failure, no-owner, and no-transaction cases are all
reported as error-carrying result values
(src/edgar_client.py:147-220). -/
theorem parse_form4_total (x : Form4Input) (e : String) (root : XmlElem) :
    ((∃ msg, parse_form4_content x = .error msg) ∨
      (∃ s, parse_form4_content x = .summary s)) ∧
    parse_form4_content (.malformed e) =
      .error ("Failed to parse Form 4 content: " ++ e) ∧
    ((find_desc root "reportingOwner").isSome = false →
      parse_form4_content (.tree root) = .error "No reporting owner found") ∧
    ((find_desc root "reportingOwner").isSome = true → scanTransactions root = [] →
      parse_form4_content (.tree root) = .error "No transaction data found") := by
  refine ⟨?_, rfl, ?_, ?_⟩
  · cases h : parse_form4_content x with
    | error msg => exact Or.inl ⟨msg, rfl⟩
    | summary s => exact Or.inr ⟨s, rfl⟩
  · intro h
    exact parse_no_owner (Option.not_isSome_iff_eq_none.mp (by simp [h]))
  · intro hs ht
    obtain ⟨o, ho⟩ := Option.isSome_iff_exists.mp hs
    exact parse_no_transactions ho ht

/-- Concrete document for the `parse_form4_total` witness: no owner
element at all. -/
def c8_root : XmlElem := xnode "doc" none []

/-- Witness for `parse_form4_total`. -/
theorem parse_form4_total_witness :
    parse_form4_content (.malformed "junk") =
      .error ("Failed to parse Form 4 content: " ++ "junk") ∧
    parse_form4_content (.tree c8_root) = .error "No reporting owner found" :=
  ⟨(parse_form4_total (.malformed "junk") "junk" c8_root).2.1,
   (parse_form4_total (.malformed "junk") "junk" c8_root).2.2.1 rfl⟩

lemma any_code_iff (ts : List Transaction) :
    ts.any (fun t => t.transaction_code == some "P") = true ↔
      ∃ t ∈ ts, t.transaction_code = some "P" := by
  simp [List.any_eq_true]

/-- C5: the overall classification (src/edgar_client.py:206-208) of a
non-empty list of valid parsed transactions is `"Purchase"` exactly when
some transaction's code equals `"P"`, and `"Sale"` otherwise; and every
summary's `transaction_type` field is that classification of its
transaction list. -/
theorem classification_purchase_iff (ts : List Transaction) (h : ts ≠ []) :
    (transactionType ts = "Purchase" ↔ ∃ t ∈ ts, t.transaction_code = some "P") ∧
    (transactionType ts = "Sale" ↔ ¬ ∃ t ∈ ts, t.transaction_code = some "P") ∧
    (∀ x s, parse_form4_content x = .summary s →
      s.transaction_type = transactionType s.transactions) := by
  refine ⟨?_, ?_, fun x s hx => (parse_summary_fields hx).1⟩
  · by_cases hP : ts.any (fun t => t.transaction_code == some "P") = true
    · simp only [transactionType, if_pos hP]
      exact ⟨fun _ => (any_code_iff ts).mp hP, fun _ => by simp⟩
    · simp only [transactionType, if_neg hP]
      constructor
      · intro hcontra; exact absurd hcontra (by decide)
      · intro hex; exact absurd ((any_code_iff ts).mpr hex) hP
  · by_cases hP : ts.any (fun t => t.transaction_code == some "P") = true
    · simp only [transactionType, if_pos hP]
      constructor
      · intro hcontra; exact absurd hcontra (by decide)
      · intro hnex; exact absurd ((any_code_iff ts).mp hP) hnex
    · simp only [transactionType, if_neg hP]
      exact ⟨fun _ hex => absurd ((any_code_iff ts).mpr hex) hP, fun _ => by simp⟩

/-- The spec's tie-break example: transaction codes `["S", "P"]`. -/
def c5_ts : List Transaction :=
  [⟨"non-derivative", 1, 1, some "S"⟩, ⟨"non-derivative", 1, 1, some "P"⟩]

/-- Witness for `classification_purchase_iff`: codes `["S", "P"]`
classify as `"Purchase"`. -/
theorem classification_purchase_iff_witness :
    transactionType c5_ts = "Purchase" :=
  (classification_purchase_iff c5_ts (by simp [c5_ts])).1.mpr
    ⟨⟨"non-derivative", 1, 1, some "P"⟩,
     List.mem_cons_of_mem _ (List.mem_cons_self _ _), rfl⟩

/-- Document with a single transaction of −10 shares at price 5: the
share total is negative. -/
def c4_root : XmlElem := xnode "doc" none
  [xnode "reportingOwner" none [],
   xnode "nonDerivativeTransaction" none
     [xnode "transactionShares" none [xnode "value" (some "-10") []],
      xnode "transactionPricePerShare" none [xnode "value" (some "5") []]]]

lemma c4_scan :
    scanTransactions c4_root = [⟨"non-derivative", -10, 5, some "Unknown"⟩] := by
  rw [show scanTransactions c4_root =
    [⟨"non-derivative", (-1 : ℚ) * ((10 : Nat) : ℚ), (1 : ℚ) * ((5 : Nat) : ℚ),
      some "Unknown"⟩] from rfl]
  simp only [List.cons.injEq, Transaction.mk.injEq]
  norm_num

/-- C4 counterexample: on a parsed transaction list with a negative
share total (one transaction of −10 shares at price 5) the code reports
price-per-share `0` (the guard at src/edgar_client.py:204 is
`total_shares > 0`, not `≠ 0`), while the claimed formula
Σ(shares×price)/Σ(shares) gives 5. -/
theorem weighted_price_negative_total_counterexample :
    parse_form4_content (.tree c4_root) =
      .summary ⟨some "Unknown", some "Unknown Position", "Sale", -10, 0,
        [⟨"non-derivative", -10, 5, some "Unknown"⟩]⟩ ∧
    claimPrice [⟨"non-derivative", -10, 5, some "Unknown"⟩] = 5 ∧
    (0 : ℚ) ≠ 5 := by
  refine ⟨?_, ?_, by norm_num⟩
  · rw [@parse_summary_eq c4_root (xnode "reportingOwner" none []) rfl
      (by rw [c4_scan]; simp), c4_scan]
    simp only [Form4Result.summary.injEq, Form4Summary.mk.injEq]
    refine ⟨rfl, rfl, rfl, by norm_num [totalShares], ?_, trivial⟩
    rw [weightedPrice, if_neg]
    norm_num [totalShares]
  · rw [claimPrice, if_neg]
    · norm_num [totalShares]
    · norm_num [totalShares]

/-- The spec's worked example: 10 shares at 5 and 30 shares at 15. -/
def c4_example : List Transaction :=
  [⟨"non-derivative", 10, 5, some "S"⟩, ⟨"non-derivative", 30, 15, some "P"⟩]

/-- C4 (amended): every summary's total is the sum of its transactions'
share counts, and its price-per-share is Σ(shares×price)/Σ(shares) when
the total is positive and `0` otherwise — i.e. `0` also for a negative
total, not only for `0` (src/edgar_client.py:202-204); on the spec's
example `[(10, 5), (30, 15)]` the total is 40 and the weighted price
12.5. -/
theorem summary_price_formula (x : Form4Input) (s : Form4Summary)
    (h : parse_form4_content x = .summary s) :
    s.shares = totalShares s.transactions ∧
    (0 < totalShares s.transactions →
      s.price_per_share =
        (s.transactions.map (fun t => t.shares * t.price_per_share)).sum /
          totalShares s.transactions) ∧
    (¬ 0 < totalShares s.transactions → s.price_per_share = 0) ∧
    totalShares c4_example = 40 ∧ weightedPrice c4_example = (25 : ℚ) / 2 := by
  obtain ⟨-, hsh, hpr⟩ := parse_summary_fields h
  refine ⟨hsh, ?_, ?_, by norm_num [c4_example, totalShares], ?_⟩
  · intro hpos; rw [hpr, weightedPrice, if_pos hpos]
  · intro hneg; rw [hpr, weightedPrice, if_neg hneg]
  · rw [weightedPrice, if_pos (by norm_num [c4_example, totalShares])]
    norm_num [c4_example, totalShares]

/-- Document with a single transaction of 10 shares at price 5, for the
`summary_price_formula` witness. -/
def c4w_root : XmlElem := xnode "doc" none
  [xnode "reportingOwner" none [],
   xnode "nonDerivativeTransaction" none
     [xnode "transactionShares" none [xnode "value" (some "10") []],
      xnode "transactionPricePerShare" none [xnode "value" (some "5") []]]]

/-- The summary `parse_form4_content` produces on `c4w_root`. -/
def c4w_summary : Form4Summary :=
  ⟨some "Unknown", some "Unknown Position", "Sale", 10, 5,
   [⟨"non-derivative", 10, 5, some "Unknown"⟩]⟩

lemma c4w_scan :
    scanTransactions c4w_root = [⟨"non-derivative", 10, 5, some "Unknown"⟩] := by
  rw [show scanTransactions c4w_root =
    [⟨"non-derivative", (1 : ℚ) * ((10 : Nat) : ℚ), (1 : ℚ) * ((5 : Nat) : ℚ),
      some "Unknown"⟩] from rfl]
  simp only [List.cons.injEq, Transaction.mk.injEq]
  norm_num

lemma c4w_parse : parse_form4_content (.tree c4w_root) = .summary c4w_summary := by
  rw [@parse_summary_eq c4w_root (xnode "reportingOwner" none []) rfl
    (by rw [c4w_scan]; simp), c4w_scan]
  simp only [c4w_summary, Form4Result.summary.injEq, Form4Summary.mk.injEq]
  refine ⟨rfl, rfl, rfl, by norm_num [totalShares], ?_, trivial⟩
  rw [weightedPrice, if_pos (by norm_num [totalShares])]
  norm_num [totalShares]

/-- Witness for `summary_price_formula` at the concrete parse of
`c4w_root`. -/
theorem summary_price_formula_witness :
    c4w_summary.shares = totalShares c4w_summary.transactions ∧
    (0 < totalShares c4w_summary.transactions →
      c4w_summary.price_per_share =
        (c4w_summary.transactions.map (fun t => t.shares * t.price_per_share)).sum /
          totalShares c4w_summary.transactions) ∧
    (¬ 0 < totalShares c4w_summary.transactions → c4w_summary.price_per_share = 0) ∧
    totalShares c4_example = 40 ∧ weightedPrice c4_example = (25 : ℚ) / 2 :=
  summary_price_formula (.tree c4w_root) c4w_summary c4w_parse

lemma try_patterns_trace (f : String → Except String String) :
    ∀ l, (try_patterns f l).1 = attempt_order f l := by
  intro l
  induction l with
  | nil => rfl
  | cons p rest ih =>
    cases hp : f p with
    | ok b => simp [try_patterns, attempt_order, hp]
    | error e => simp [try_patterns, attempt_order, hp, ih]

lemma try_patterns_congr (f f2 : String → Except String String) :
    ∀ l, (∀ u ∈ (try_patterns f l).1, f2 u = f u) →
      try_patterns f2 l = try_patterns f l := by
  intro l
  induction l with
  | nil => intro _; rfl
  | cons p rest ih =>
    intro h
    have hp2 : f2 p = f p := by
      apply h
      cases hp : f p <;> simp [try_patterns, hp]
    cases hp : f p with
    | ok b => simp [try_patterns, hp, hp2.trans hp]
    | error e =>
      have htr : (try_patterns f (p :: rest)).1 = p :: (try_patterns f rest).1 := by
        simp [try_patterns, hp]
      have ih2 := ih (fun u hu => h u (by rw [htr]; exact List.mem_cons_of_mem _ hu))
      simp [try_patterns, hp, hp2.trans hp, ih2]

lemma try_patterns_all_fail (f : String → Except String String) :
    ∀ l, (∀ u ∈ l, isErr (f u) = true) →
      try_patterns f l =
        (l, .error "Could not retrieve Form 4 document using any known method") := by
  intro l
  induction l with
  | nil => intro _; rfl
  | cons p rest ih =>
    intro h
    have hp := h p (List.mem_cons_self _ _)
    cases hfp : f p with
    | ok b => rw [hfp] at hp; simp [isErr] at hp
    | error e =>
      have ih2 := ih (fun u hu => h u (List.mem_cons_of_mem _ hu))
      simp [try_patterns, hfp, ih2]

lemma attempt_order_len (f : String → Except String String) :
    ∀ l, (attempt_order f l).length ≤ l.length := by
  intro l
  induction l with
  | nil => simp [attempt_order]
  | cons p rest ih =>
    cases hp : f p with
    | ok b => simp [attempt_order, hp]
    | error e => simp [attempt_order, hp]; omega

lemma attempt_order_all_fail (f : String → Except String String) :
    ∀ l, (∀ u ∈ l, isErr (f u) = true) → attempt_order f l = l := by
  intro l
  induction l with
  | nil => intro _; rfl
  | cons p rest ih =>
    intro h
    have hp := h p (List.mem_cons_self _ _)
    cases hfp : f p with
    | ok b => rw [hfp] at hp; simp [isErr] at hp
    | error e => simp [attempt_order, hfp, ih (fun u hu => h u (List.mem_cons_of_mem _ hu))]

lemma index_lookup_first (o : Oracle) (p c : String) :
    ∃ rest, (index_lookup o p c).1 = index_json_url p c :: rest := by
  cases h1 : o.fetch (index_json_url p c) with
  | error e => exact ⟨[], by simp [index_lookup, h1]⟩
  | ok body =>
    cases h2 : o.jsonItems body with
    | error e => exact ⟨[], by simp [index_lookup, h1, h2]⟩
    | ok items =>
      cases h3 : items.find? (fun f => isForm4File f.name) with
      | none => exact ⟨[], by simp [index_lookup, h1, h2, h3]⟩
      | some f =>
        cases h4 : o.fetch (base_url ++ "/" ++ p ++ "/" ++ c ++ "/" ++ f.name) with
        | error e =>
          exact ⟨[base_url ++ "/" ++ p ++ "/" ++ c ++ "/" ++ f.name],
            by simp [index_lookup, h1, h2, h3, h4]⟩
        | ok doc =>
          exact ⟨[base_url ++ "/" ++ p ++ "/" ++ c ++ "/" ++ f.name],
            by simp [index_lookup, h1, h2, h3, h4]⟩

lemma index_lookup_len (o : Oracle) (p c : String) :
    (index_lookup o p c).1.length ≤ 2 := by
  cases h1 : o.fetch (index_json_url p c) with
  | error e => simp [index_lookup, h1]
  | ok body =>
    cases h2 : o.jsonItems body with
    | error e => simp [index_lookup, h1, h2]
    | ok items =>
      cases h3 : items.find? (fun f => isForm4File f.name) with
      | none => simp [index_lookup, h1, h2, h3]
      | some f =>
        cases h4 : o.fetch (base_url ++ "/" ++ p ++ "/" ++ c ++ "/" ++ f.name) with
        | error e => simp [index_lookup, h1, h2, h3, h4]
        | ok doc => simp [index_lookup, h1, h2, h3, h4]

lemma index_lookup_of_fetch_error {o : Oracle} {p c e : String}
    (h : o.fetch (index_json_url p c) = .error e) :
    index_lookup o p c = ([index_json_url p c], none) := by
  simp [index_lookup, h]

lemma index_lookup_congr (o o2 : Oracle) (p c : String)
    (hj : o2.jsonItems = o.jsonItems)
    (hf : ∀ u ∈ (index_lookup o p c).1, o2.fetch u = o.fetch u) :
    index_lookup o2 p c = index_lookup o p c := by
  have hiu : o2.fetch (index_json_url p c) = o.fetch (index_json_url p c) := by
    apply hf
    obtain ⟨rest, hr⟩ := index_lookup_first o p c
    rw [hr]
    exact List.mem_cons_self _ _
  cases h1 : o.fetch (index_json_url p c) with
  | error e => simp [index_lookup, h1, hiu.trans h1]
  | ok body =>
    cases h2 : o.jsonItems body with
    | error e => simp [index_lookup, h1, hiu.trans h1, hj, h2]
    | ok items =>
      cases h3 : items.find? (fun f => isForm4File f.name) with
      | none => simp [index_lookup, h1, hiu.trans h1, hj, h2, h3]
      | some f =>
        have hdu : o2.fetch (base_url ++ "/" ++ p ++ "/" ++ c ++ "/" ++ f.name) =
            o.fetch (base_url ++ "/" ++ p ++ "/" ++ c ++ "/" ++ f.name) := by
          apply hf
          cases h4 : o.fetch (base_url ++ "/" ++ p ++ "/" ++ c ++ "/" ++ f.name) <;>
            simp [index_lookup, h1, h2, h3, h4]
        cases h4 : o.fetch (base_url ++ "/" ++ p ++ "/" ++ c ++ "/" ++ f.name) with
        | error e => simp [index_lookup, h1, hiu.trans h1, hj, h2, h3, hdu.trans h4, h4]
        | ok doc => simp [index_lookup, h1, hiu.trans h1, hj, h2, h3, hdu.trans h4, h4]

lemma get_filing_document_trace_form4 (o : Oracle) (a cik : String) :
    (get_filing_document o a cik (some "4")).1 =
      (index_lookup o (zfill cik 10) (stripDashes a)).1 ++
        (match (index_lookup o (zfill cik 10) (stripDashes a)).2 with
         | some _ => []
         | none => attempt_order o.fetch (form4_patterns (zfill cik 10) (stripDashes a))) := by
  rcases h : index_lookup o (zfill cik 10) (stripDashes a) with ⟨tr, d⟩
  cases d with
  | some doc => simp [get_filing_document, h]
  | none => simp [get_filing_document, h, try_patterns_trace]

/-- C1: resolver fallback determinism.  For every oracle (fixed pattern
of simulated remote responses/failures) and fixed inputs: the first URL
attempted is always the accession's `index.json`; for Form 4, when the
index fetch fails the attempt sequence is exactly `index.json` followed
by the fixed pattern list `[form4.xml, xslF345X03/form4.xml,
<clean_accession>.txt, primary_doc.xml]` in order, stopping at the
first success; when the index lookup resolves a document the patterns
are never attempted; and any second run against an oracle answering the
same on every attempted URL produces the identical attempt sequence and
outcome (src/edgar_client.py:54-103). -/
theorem resolver_fallback_determinism (o o2 : Oracle)
    (accession_number cik : String) (form_type : Option String) :
    ((get_filing_document o accession_number cik form_type).1.head? =
      some (index_json_url (zfill cik 10) (stripDashes accession_number))) ∧
    (isErr (o.fetch (index_json_url (zfill cik 10) (stripDashes accession_number))) = true →
      (get_filing_document o accession_number cik (some "4")).1 =
        index_json_url (zfill cik 10) (stripDashes accession_number) ::
          attempt_order o.fetch
            (form4_patterns (zfill cik 10) (stripDashes accession_number))) ∧
    (∀ tr doc,
      index_lookup o (zfill cik 10) (stripDashes accession_number) = (tr, some doc) →
      get_filing_document o accession_number cik (some "4") = (tr, .ok doc)) ∧
    (o2.jsonItems = o.jsonItems →
      (∀ u ∈ (get_filing_document o accession_number cik form_type).1,
        o2.fetch u = o.fetch u) →
      get_filing_document o2 accession_number cik form_type =
        get_filing_document o accession_number cik form_type) := by
  refine ⟨?_, ?_, ?_, ?_⟩
  · -- the first attempted URL is the index endpoint
    by_cases hft : form_type = some "4"
    · subst hft
      rw [get_filing_document_trace_form4]
      obtain ⟨rest, hr⟩ := index_lookup_first o (zfill cik 10) (stripDashes accession_number)
      rw [hr]
      simp
    · cases h1 : o.fetch (index_json_url (zfill cik 10) (stripDashes accession_number)) with
      | error e => simp [get_filing_document, hft, h1]
      | ok body =>
        cases h2 : o.jsonItems body with
        | error e => simp [get_filing_document, hft, h1, h2]
        | ok items =>
          cases h4 : o.fetch (base_url ++ "/" ++ zfill cik 10 ++ "/" ++
              stripDashes accession_number ++ "/" ++
              (match items.find? (fun f => f.type == form_type ||
                  f.name.endsWith ".htm") with
               | some f => f.name
               | none => stripDashes accession_number ++ ".txt")) with
          | error e => simp [get_filing_document, hft, h1, h2, h4]
          | ok doc => simp [get_filing_document, hft, h1, h2, h4]
  · -- index fetch failure: index.json, then the fixed patterns in order
    intro hie
    obtain ⟨e, he⟩ : ∃ e, o.fetch (index_json_url (zfill cik 10)
        (stripDashes accession_number)) = .error e := by
      cases hfe : o.fetch (index_json_url (zfill cik 10) (stripDashes accession_number)) with
      | error e => exact ⟨e, rfl⟩
      | ok b => rw [hfe] at hie; simp [isErr] at hie
    rw [get_filing_document_trace_form4, index_lookup_of_fetch_error he]
    simp
  · -- index success: stop there, return the resolved document
    intro tr doc h
    simp [get_filing_document, h]
  · -- oracle agreement on the attempted URLs reproduces the run
    intro hj hf
    by_cases hft : form_type = some "4"
    · subst hft
      have hfI : ∀ u ∈ (index_lookup o (zfill cik 10) (stripDashes accession_number)).1,
          o2.fetch u = o.fetch u := by
        intro u hu
        apply hf
        rw [get_filing_document_trace_form4]
        exact List.mem_append_left _ hu
      have hIL := index_lookup_congr o o2 (zfill cik 10) (stripDashes accession_number) hj hfI
      rcases h : index_lookup o (zfill cik 10) (stripDashes accession_number) with ⟨tr, d⟩
      cases d with
      | some doc => simp [get_filing_document, h, hIL.trans h]
      | none =>
        have hfP : ∀ u ∈ (try_patterns o.fetch
            (form4_patterns (zfill cik 10) (stripDashes accession_number))).1,
            o2.fetch u = o.fetch u := by
          intro u hu
          apply hf
          rw [get_filing_document_trace_form4, h]
          exact List.mem_append_right _ (by rwa [try_patterns_trace] at hu)
        have hTP := try_patterns_congr o.fetch o2.fetch _ hfP
        simp [get_filing_document, h, hIL.trans h, hTP]
    · have hiu : o2.fetch (index_json_url (zfill cik 10) (stripDashes accession_number)) =
          o.fetch (index_json_url (zfill cik 10) (stripDashes accession_number)) := by
        apply hf
        cases h1 : o.fetch (index_json_url (zfill cik 10) (stripDashes accession_number)) with
        | error e => simp [get_filing_document, hft, h1]
        | ok body =>
          cases h2 : o.jsonItems body with
          | error e => simp [get_filing_document, hft, h1, h2]
          | ok items =>
            cases h4 : o.fetch (base_url ++ "/" ++ zfill cik 10 ++ "/" ++
                stripDashes accession_number ++ "/" ++
                (match items.find? (fun f => f.type == form_type ||
                    f.name.endsWith ".htm") with
                 | some f => f.name
                 | none => stripDashes accession_number ++ ".txt")) with
            | error e => simp [get_filing_document, hft, h1, h2, h4]
            | ok doc => simp [get_filing_document, hft, h1, h2, h4]
      cases h1 : o.fetch (index_json_url (zfill cik 10) (stripDashes accession_number)) with
      | error e => simp [get_filing_document, hft, h1, hiu.trans h1]
      | ok body =>
        cases h2 : o.jsonItems body with
        | error e => simp [get_filing_document, hft, h1, hiu.trans h1, hj, h2]
        | ok items =>
          have hdu : o2.fetch (base_url ++ "/" ++ zfill cik 10 ++ "/" ++
              stripDashes accession_number ++ "/" ++
              (match items.find? (fun f => f.type == form_type ||
                  f.name.endsWith ".htm") with
               | some f => f.name
               | none => stripDashes accession_number ++ ".txt")) =
              o.fetch (base_url ++ "/" ++ zfill cik 10 ++ "/" ++
              stripDashes accession_number ++ "/" ++
              (match items.find? (fun f => f.type == form_type ||
                  f.name.endsWith ".htm") with
               | some f => f.name
               | none => stripDashes accession_number ++ ".txt")) := by
            apply hf
            cases h4 : o.fetch (base_url ++ "/" ++ zfill cik 10 ++ "/" ++
                stripDashes accession_number ++ "/" ++
                (match items.find? (fun f => f.type == form_type ||
                    f.name.endsWith ".htm") with
                 | some f => f.name
                 | none => stripDashes accession_number ++ ".txt")) with
            | error e => simp [get_filing_document, hft, h1, h2, h4]
            | ok doc => simp [get_filing_document, hft, h1, h2, h4]
          cases h4 : o.fetch (base_url ++ "/" ++ zfill cik 10 ++ "/" ++
              stripDashes accession_number ++ "/" ++
              (match items.find? (fun f => f.type == form_type ||
                  f.name.endsWith ".htm") with
               | some f => f.name
               | none => stripDashes accession_number ++ ".txt")) with
          | error e =>
            simp [get_filing_document, hft, h1, hiu.trans h1, hj, h2, hdu.trans h4, h4]
          | ok doc =>
            simp [get_filing_document, hft, h1, hiu.trans h1, hj, h2, hdu.trans h4, h4]

/-- Oracle on which every fetch fails, for the
`resolver_fallback_determinism` witness. -/
def c1_oracle : Oracle := ⟨fun _ => .error "404", fun _ => .error "bad json"⟩

/-- Witness for `resolver_fallback_determinism` at concrete inputs: the
attempt order under an all-failing oracle, and reproducibility against
an oracle agreeing on every attempted URL. -/
theorem resolver_fallback_determinism_witness :
    (get_filing_document c1_oracle "0001-23-456" "5" (some "4")).1 =
      index_json_url (zfill "5" 10) (stripDashes "0001-23-456") ::
        attempt_order c1_oracle.fetch
          (form4_patterns (zfill "5" 10) (stripDashes "0001-23-456")) ∧
    get_filing_document c1_oracle "0001-23-456" "5" (some "4") =
      get_filing_document c1_oracle "0001-23-456" "5" (some "4") :=
  ⟨(resolver_fallback_determinism c1_oracle c1_oracle "0001-23-456" "5" (some "4")).2.1 rfl,
   (resolver_fallback_determinism c1_oracle c1_oracle "0001-23-456" "5" (some "4")).2.2.2
     rfl (fun _ _ => rfl)⟩

/-- C2: resolution exhaustion is terminal.  When the index lookup
resolves nothing and every fixed pattern fails, the Form 4 branch of
`get_filing_document` returns the distinct terminal error of
src/edgar_client.py:103 (re-raised with the prefix of
src/edgar_client.py:138) after attempting exactly the index trace plus
the four patterns; the attempt trace is always bounded (at most 6
URLs, and exactly 5 — one index attempt plus one per pattern — when the
index fetch itself fails), so exhaustion never retries or loops. -/
theorem resolution_exhaustion_terminal (o : Oracle) (accession_number cik : String) :
    ((index_lookup o (zfill cik 10) (stripDashes accession_number)).2 = none →
      (∀ u ∈ form4_patterns (zfill cik 10) (stripDashes accession_number),
        isErr (o.fetch u) = true) →
      get_filing_document o accession_number cik (some "4") =
        ((index_lookup o (zfill cik 10) (stripDashes accession_number)).1 ++
          form4_patterns (zfill cik 10) (stripDashes accession_number),
         .error "Failed to fetch document: Could not retrieve Form 4 document using any known method")) ∧
    (get_filing_document o accession_number cik (some "4")).1.length ≤ 6 ∧
    (isErr (o.fetch (index_json_url (zfill cik 10) (stripDashes accession_number))) = true →
      (∀ u ∈ form4_patterns (zfill cik 10) (stripDashes accession_number),
        isErr (o.fetch u) = true) →
      (get_filing_document o accession_number cik (some "4")).1.length = 5) := by
  refine ⟨?_, ?_, ?_⟩
  · intro h2 hall
    rcases hI : index_lookup o (zfill cik 10) (stripDashes accession_number) with ⟨tr, d⟩
    rw [hI] at h2
    subst h2
    have hTP := try_patterns_all_fail o.fetch _ hall
    simp [get_filing_document, hI, hTP, wrapDocError]
  · rw [get_filing_document_trace_form4]
    have hIL := index_lookup_len o (zfill cik 10) (stripDashes accession_number)
    cases hd : (index_lookup o (zfill cik 10) (stripDashes accession_number)).2 with
    | some doc =>
      simp only [List.length_append, List.length_nil]
      omega
    | none =>
      have hAO := attempt_order_len o.fetch
        (form4_patterns (zfill cik 10) (stripDashes accession_number))
      have hlen : (form4_patterns (zfill cik 10) (stripDashes accession_number)).length = 4 := rfl
      rw [hlen] at hAO
      simp only [List.length_append]
      omega
  · intro hie hall
    obtain ⟨e, he⟩ : ∃ e, o.fetch (index_json_url (zfill cik 10)
        (stripDashes accession_number)) = .error e := by
      cases hfe : o.fetch (index_json_url (zfill cik 10) (stripDashes accession_number)) with
      | error e => exact ⟨e, rfl⟩
      | ok b => rw [hfe] at hie; simp [isErr] at hie
    rw [get_filing_document_trace_form4, index_lookup_of_fetch_error he,
      attempt_order_all_fail o.fetch _ hall]
    simp [form4_patterns]

/-- Oracle on which every fetch fails, for the
`resolution_exhaustion_terminal` witness. -/
def c2_oracle : Oracle := ⟨fun _ => .error "HTTP 404", fun _ => .error "no json"⟩

/-- Witness for `resolution_exhaustion_terminal`: with every remote
fetch failing, the Form 4 resolution ends in the terminal error after
exactly five attempts. -/
theorem resolution_exhaustion_terminal_witness :
    get_filing_document c2_oracle "0001-23-456" "5" (some "4") =
      ((index_lookup c2_oracle (zfill "5" 10) (stripDashes "0001-23-456")).1 ++
        form4_patterns (zfill "5" 10) (stripDashes "0001-23-456"),
       .error "Failed to fetch document: Could not retrieve Form 4 document using any known method") ∧
    (get_filing_document c2_oracle "0001-23-456" "5" (some "4")).1.length = 5 :=
  ⟨(resolution_exhaustion_terminal c2_oracle "0001-23-456" "5").1 rfl (fun _ _ => rfl),
   (resolution_exhaustion_terminal c2_oracle "0001-23-456" "5").2.2 rfl (fun _ _ => rfl)⟩
